import Mathlib

/-!
Verification of the HTML character-reference decoding subroutine
(`src/src/html_parser/consume_char_refs.rs`) of the gosub-browser repository.

The Rust source is shallowly embedded: the tokenizer state visible to this
subroutine (the consume buffer, the character stream and the recorded parse
errors) becomes an explicit record, stream reads become list destructuring,
and each Rust function becomes a Lean function of the same name.
-/

/-- Parse errors recorded via `tokenizer.parse_error(...)`.  Each constructor
stands for the literal message string used in the source:
`expectedSemicolon` for the message at line 78 (expected a semicolon),
`noDigits` for line 85 (did not expect the hash-semicolon form),
`withinReservedReplaced` for line 106 (within reserved codepoint range, but
replaced), `withinReservedIgnored` for line 113 (within reserved codepoint
range, ignored). -/
inductive ParseError where
  | expectedSemicolon
  | noDigits
  | withinReservedReplaced
  | withinReservedIgnored
deriving DecidableEq, Repr

/-- The slice of tokenizer state this subroutine touches: the consume buffer
(append-only character accumulator), the remaining character stream (reads
take the head; unread pushes one character back), and the recorded parse
errors. -/
structure Tokenizer where
  buffer : List Char
  input : List Char
  errors : List ParseError
deriving DecidableEq, Repr

/-- `tokenizer.consume(c)`: append a character to the consume buffer. -/
def Tokenizer.consume (tk : Tokenizer) (c : Char) : Tokenizer :=
  { tk with buffer := tk.buffer ++ [c] }

/-- `tokenizer.get_consume_len()`. -/
def Tokenizer.get_consume_len (tk : Tokenizer) : Nat :=
  tk.buffer.length

/-- `tokenizer.set_consume_len(l)`: truncate the consume buffer back to a
previously observed length. -/
def Tokenizer.set_consume_len (tk : Tokenizer) (l : Nat) : Tokenizer :=
  { tk with buffer := tk.buffer.take l }

/-- `tokenizer.clear_consume_buffer()`: full reset of the consume buffer. -/
def Tokenizer.clear_consume_buffer (tk : Tokenizer) : Tokenizer :=
  { tk with buffer := [] }

/-- `tokenizer.parse_error(msg)`: record a non-fatal diagnostic. -/
def Tokenizer.parse_error (tk : Tokenizer) (e : ParseError) : Tokenizer :=
  { tk with errors := tk.errors ++ [e] }

/-- `Tokenizer::CHAR_TAB`, horizontal tab U+0009. -/
def CHAR_TAB : Char := Char.ofNat 0x09

/-- `Tokenizer::CHAR_LF`, line feed U+000A. -/
def CHAR_LF : Char := Char.ofNat 0x0A

/-- `Tokenizer::CHAR_FF`, form feed U+000C. -/
def CHAR_FF : Char := Char.ofNat 0x0C

/-- `Tokenizer::CHAR_REPLACEMENT`, the Unicode replacement character U+FFFD. -/
def CHAR_REPLACEMENT : Char := Char.ofNat 0xFFFD

/-- Rust `char::is_ascii_digit`: the character is one of the bytes from
ASCII 0 (48) through ASCII 9 (57). -/
def rust_is_ascii_digit (c : Char) : Bool :=
  decide (48 ≤ c.toNat ∧ c.toNat ≤ 57)

/-- Rust `char::is_ascii_hexdigit`: an ASCII decimal digit, or one of the
letters a-f (97-102) or A-F (65-70). -/
def rust_is_ascii_hexdigit (c : Char) : Bool :=
  rust_is_ascii_digit c
    || decide (97 ≤ c.toNat ∧ c.toNat ≤ 102)
    || decide (65 ≤ c.toNat ∧ c.toNat ≤ 70)

/-- Value of an ASCII digit of radix 16 (also covers radix 10 digits),
as `u32::from_str_radix` interprets each character. -/
def digit_value (c : Char) : Nat :=
  if 48 ≤ c.toNat ∧ c.toNat ≤ 57 then c.toNat - 48
  else if 97 ≤ c.toNat ∧ c.toNat ≤ 102 then c.toNat - 97 + 10
  else if 65 ≤ c.toNat ∧ c.toNat ≤ 70 then c.toNat - 65 + 10
  else 0

/-- `u32::from_str_radix(str_num, radix)` followed by the source's
`Err -> 0` fallback (line 92-95): accumulate the digits in the given radix;
a value that does not fit in a `u32` makes `from_str_radix` return `Err`,
which the source maps to `0`.  (The digit string produced by the digit loop
always consists of valid digits of the active radix, so the only `Err`
case reachable from the loop is overflow.) -/
def u32_from_str_radix (s : List Char) (radix : Nat) : Nat :=
  let v := s.foldl (fun acc c => acc * radix + digit_value c) 0
  if v < 4294967296 then v else 0

/-- Modelled from the spec: `TOKEN_REPLACEMENTS` lives in
`src/src/html_parser/token_replacements.rs`, which is not part of the
excerpt.  Spec section 4.4 describes it as the immutable map from the
numeric reference values historically produced by Windows-1252
mis-encodings (entries spanning the 0x80-0x9F block, e.g. 0x80 mapping to
U+20AC and 0x85 to U+2026) to their intended Unicode scalars; this is the
standard HTML5 numeric-reference replacement table restricted to that
block. -/
def TOKEN_REPLACEMENTS : List (Nat × Char) :=
  [ (0x80, Char.ofNat 0x20AC), (0x82, Char.ofNat 0x201A),
    (0x83, Char.ofNat 0x0192), (0x84, Char.ofNat 0x201E),
    (0x85, Char.ofNat 0x2026), (0x86, Char.ofNat 0x2020),
    (0x87, Char.ofNat 0x2021), (0x88, Char.ofNat 0x02C6),
    (0x89, Char.ofNat 0x2030), (0x8A, Char.ofNat 0x0160),
    (0x8B, Char.ofNat 0x2039), (0x8C, Char.ofNat 0x0152),
    (0x8E, Char.ofNat 0x017D), (0x91, Char.ofNat 0x2018),
    (0x92, Char.ofNat 0x2019), (0x93, Char.ofNat 0x201C),
    (0x94, Char.ofNat 0x201D), (0x95, Char.ofNat 0x2022),
    (0x96, Char.ofNat 0x2013), (0x97, Char.ofNat 0x2014),
    (0x98, Char.ofNat 0x02DC), (0x99, Char.ofNat 0x2122),
    (0x9A, Char.ofNat 0x0161), (0x9B, Char.ofNat 0x203A),
    (0x9C, Char.ofNat 0x0153), (0x9E, Char.ofNat 0x017E),
    (0x9F, Char.ofNat 0x0178) ]

/-- `TOKEN_REPLACEMENTS.contains_key(&num)` (line 97). -/
def token_replacements_contains (num : Nat) : Bool :=
  (TOKEN_REPLACEMENTS.map Prod.fst).contains num

/-- `*TOKEN_REPLACEMENTS.get(&num).unwrap()` (line 99); only evaluated on a
key for which `token_replacements_contains` holds, so the default is never
reached on the source's path. -/
def token_replacement (num : Nat) : Char :=
  ((TOKEN_REPLACEMENTS.find? (fun p => p.1 == num)).map Prod.snd).getD (Char.ofNat 0)

/-- The literal slice of noncharacter codepoints of lines 130-136, in source
order: the standalone 0x000B followed by the two plane-boundary
noncharacters of each of the 17 planes. -/
def NONCHARACTER_LIST : List Nat :=
  [ 0x000B, 0xFFFE, 0xFFFF, 0x1FFFE, 0x1FFFF, 0x2FFFE, 0x2FFFF, 0x3FFFE, 0x3FFFF,
    0x4FFFE, 0x4FFFF, 0x5FFFE, 0x5FFFF, 0x6FFFE, 0x6FFFF, 0x7FFFE, 0x7FFFF,
    0x8FFFE, 0x8FFFF, 0x9FFFE, 0x9FFFF, 0xAFFFE, 0xAFFFF, 0xBFFFE, 0xBFFFF,
    0xCFFFE, 0xCFFFF, 0xDFFFE, 0xDFFFF, 0xEFFFE, 0xEFFFF, 0xFFFFE, 0xFFFFF,
    0x10FFFE, 0x10FFFF ]

/-- `in_reserved_number_range` (lines 119-141), with the source's duplicated
`0x000E..=0x001F` ranges (lines 125-129) kept in place.  The Rust
`if ... { return true; } return false;` shape is the boolean decision of the
disjunction. -/
def in_reserved_number_range (codepoint : Nat) : Bool :=
  decide (
    (0x0001 ≤ codepoint ∧ codepoint ≤ 0x0008) ∨
    (0x000E ≤ codepoint ∧ codepoint ≤ 0x001F) ∨
    (0x007F ≤ codepoint ∧ codepoint ≤ 0x009F) ∨
    (0xFDD0 ≤ codepoint ∧ codepoint ≤ 0xFDEF) ∨
    (0x000E ≤ codepoint ∧ codepoint ≤ 0x001F) ∨
    (0x000E ≤ codepoint ∧ codepoint ≤ 0x001F) ∨
    (0x000E ≤ codepoint ∧ codepoint ≤ 0x001F) ∨
    (0x000E ≤ codepoint ∧ codepoint ≤ 0x001F) ∨
    (0x000E ≤ codepoint ∧ codepoint ≤ 0x001F) ∨
    NONCHARACTER_LIST.contains codepoint = true)

/-- The surrogate/overflow condition of line 104, verbatim:
`(num > 0xD800 && num < 0xDFFF) || (num > 0x10FFFFF)` — note the
seven-digit literal `0x10FFFFF` in the source. -/
def surrogate_overflow_cond (num : Nat) : Bool :=
  (decide (0xD800 < num) && decide (num < 0xDFFF)) || decide (0x10FFFFF < num)

/-- Lines 97-115 of `consume_dash_entity`: the handling of the parsed
numeric value `num`, with `len` the rollback watermark captured at entry.
Line 97-101: legacy replacement (early return).  Line 104-108: the
surrogate/overflow guard (no return; truncate, record the error, append
U+FFFD).  Line 111-114: the reserved-range check, evaluated afterwards
unconditionally (truncate, record the error, append nothing). -/
def numeric_value_stage (len : Nat) (num : Nat) (tk : Tokenizer) : Tokenizer :=
  if token_replacements_contains num then
    (tk.set_consume_len len).consume (token_replacement num)
  else
    let tkA :=
      if surrogate_overflow_cond num then
        (((tk.set_consume_len len).parse_error ParseError.withinReservedReplaced).consume
          CHAR_REPLACEMENT)
      else tk
    if in_reserved_number_range num then
      (tkA.set_consume_len len).parse_error ParseError.withinReservedIgnored
    else tkA

/-- Result of the digit loop of lines 48-67: either `read_char` hit EOF
inside the loop (line 51; the caller then truncates and returns), or a
non-digit character broke the loop (line 63; that character has been read
off the stream and discarded), carrying the accumulated digit string
`str_num` and the digit count `i`. -/
inductive DigitLoopResult where
  | eofInLoop (tk : Tokenizer)
  | brokeOut (tk : Tokenizer) (str_num : List Char) (i : Nat)
deriving DecidableEq, Repr

/-- The digit loop of lines 48-67, recursing on the remaining stream.  Each
iteration reads one character; in hex mode an ASCII hex digit (and in
decimal mode an ASCII decimal digit) is pushed onto `str_num` and appended
to the consume buffer, any other character breaks the loop without being
pushed back. -/
def digit_loop (is_hex : Bool) (str_num : List Char) (i : Nat)
    (buf : List Char) (errs : List ParseError) : List Char → DigitLoopResult
  | [] => DigitLoopResult.eofInLoop ⟨buf, [], errs⟩
  | c :: rest =>
    if is_hex && rust_is_ascii_hexdigit c then
      digit_loop is_hex (str_num ++ [c]) (i + 1) (buf ++ [c]) errs rest
    else if !is_hex && rust_is_ascii_digit c then
      digit_loop is_hex (str_num ++ [c]) (i + 1) (buf ++ [c]) errs rest
    else
      DigitLoopResult.brokeOut ⟨buf, rest, errs⟩ str_num i

/-- `consume_dash_entity` (lines 29-115): numeric reference decoding,
entered with the stream positioned just after the `#`.  Line 33: capture
the watermark.  Line 36: append `#`.  Lines 39-46: peek one character and
on `x`/`X` enter hex mode, consuming it.  Lines 48-67: the digit loop.
Lines 70-74: read the terminator candidate (EOF truncates and returns).
Lines 77-81: a non-semicolon records the expected-semicolon error and
truncates.  Lines 84-88: zero digits record the no-digits error and
truncate.  Lines 92-95: parse the digit string.  Lines 97-115:
`numeric_value_stage`. -/
def consume_dash_entity (tk0 : Tokenizer) : Tokenizer :=
  let len := tk0.get_consume_len
  let tk1 := tk0.consume '#'
  let step :=
    match tk1.input with
    | c :: rest =>
      if c = 'x' ∨ c = 'X' then (true, Tokenizer.consume { tk1 with input := rest } c)
      else (false, tk1)
    | [] => (false, tk1)
  let is_hex := step.1
  let tk2 := step.2
  match digit_loop is_hex [] 0 tk2.buffer tk2.errors tk2.input with
  | DigitLoopResult.eofInLoop tk3 => tk3.set_consume_len len
  | DigitLoopResult.brokeOut tk3 str_num i =>
    match tk3.input with
    | [] => tk3.set_consume_len len
    | c :: rest =>
      let tk4 : Tokenizer := { tk3 with input := rest }
      if c ≠ ';' then (tk4.parse_error ParseError.expectedSemicolon).set_consume_len len
      else if i = 0 then (tk4.parse_error ParseError.noDigits).set_consume_len len
      else
        numeric_value_stage len (u32_from_str_radix str_num (if is_hex then 16 else 10)) tk4

/-- `consume_anything_else` (lines 144-146): the named-reference branch,
an empty function body. -/
def consume_anything_else (tk : Tokenizer) : Tokenizer :=
  tk

/-- `consume_character_reference` (lines 5-26).  Line 6-12: read one
character, clearing the consume buffer and returning on EOF.  Lines 15-19:
if the additional allowed character was supplied and matches, unread it and
clear the buffer.  Lines 21-25: tab, line feed and form feed return with no
further effect; `#` delegates to `consume_dash_entity`; everything else to
`consume_anything_else`. -/
def consume_character_reference (tk : Tokenizer)
    (additional_allowed_char : Option Char) : Tokenizer :=
  match tk.input with
  | [] => { tk with input := [], buffer := [] }
  | c :: rest =>
    let tk1 : Tokenizer := { tk with input := rest }
    if additional_allowed_char = some c then
      { tk1 with input := c :: tk1.input, buffer := [] }
    else if c = CHAR_TAB ∨ c = CHAR_LF ∨ c = CHAR_FF then
      tk1
    else if c = '#' then
      consume_dash_entity tk1
    else
      consume_anything_else tk1

/-! ### Helper lemmas -/

/-- An ASCII decimal digit is neither of the hex markers, so the
`look_ahead` test of line 41 fails on it. -/
theorem rust_digit_not_marker (c : Char) (h : rust_is_ascii_digit c = true) :
    ¬(c = 'x' ∨ c = 'X') := by
  rintro (rfl | rfl) <;> exact absurd h (by decide)

/-- Every key of the legacy replacement table is at most 0x9F. -/
theorem token_replacements_keys_le (num : Nat)
    (h : token_replacements_contains num = true) : num ≤ 0x9F := by
  simp [token_replacements_contains, TOKEN_REPLACEMENTS, List.contains] at h
  omega

/-- Every reserved codepoint is at most 0x10FFFF. -/
theorem reserved_le (num : Nat) (h : in_reserved_number_range num = true) :
    num ≤ 0x10FFFF := by
  simp [in_reserved_number_range, NONCHARACTER_LIST, List.contains] at h
  omega

/-- A value in the surrogate/overflow guard of line 104 is never classified
as reserved by `in_reserved_number_range`. -/
theorem surrogate_imp_not_reserved (num : Nat)
    (h : surrogate_overflow_cond num = true) :
    in_reserved_number_range num = false := by
  simp [surrogate_overflow_cond] at h
  simp [in_reserved_number_range, NONCHARACTER_LIST, List.contains]
  omega

/-- A value in the surrogate/overflow guard of line 104 is never a key of
the legacy replacement table. -/
theorem surrogate_imp_not_replacement (num : Nat)
    (h : surrogate_overflow_cond num = true) :
    token_replacements_contains num = false := by
  simp [surrogate_overflow_cond] at h
  simp [token_replacements_contains, TOKEN_REPLACEMENTS, List.contains]
  omega

/-- The value stage, on a value caught by the surrogate/overflow guard:
the legacy lookup misses, the guard truncates, records the error and
appends U+FFFD, and the reserved-range check does not fire afterwards. -/
theorem numeric_value_stage_surrogate (len num : Nat) (tk : Tokenizer)
    (h : surrogate_overflow_cond num = true) :
    numeric_value_stage len num tk =
      ⟨tk.buffer.take len ++ [CHAR_REPLACEMENT], tk.input,
        tk.errors ++ [ParseError.withinReservedReplaced]⟩ := by
  simp [numeric_value_stage, surrogate_imp_not_replacement num h,
    surrogate_imp_not_reserved num h, h, Tokenizer.set_consume_len,
    Tokenizer.parse_error, Tokenizer.consume]

/-- The value stage, on a reserved value that misses the legacy table:
the surrogate/overflow guard does not fire, the reserved-range check
truncates and records the error, appending nothing. -/
theorem numeric_value_stage_reserved (len num : Nat) (tk : Tokenizer)
    (h1 : in_reserved_number_range num = true)
    (h2 : token_replacements_contains num = false) :
    numeric_value_stage len num tk =
      ⟨tk.buffer.take len, tk.input,
        tk.errors ++ [ParseError.withinReservedIgnored]⟩ := by
  have hs : surrogate_overflow_cond num = false := by
    cases hq : surrogate_overflow_cond num with
    | false => rfl
    | true => rw [surrogate_imp_not_reserved num hq] at h1; exact absurd h1 (by decide)
  simp [numeric_value_stage, h1, h2, hs, Tokenizer.set_consume_len,
    Tokenizer.parse_error, Tokenizer.consume]

/-- The digit loop in decimal mode consumes a run of ASCII decimal digits
entirely, hitting EOF if nothing follows them. -/
theorem digit_loop_all_digits (ds : List Char) :
    ∀ (s : List Char) (i : Nat) (buf : List Char) (errs : List ParseError),
      ds.all rust_is_ascii_digit = true →
      digit_loop false s i buf errs ds = DigitLoopResult.eofInLoop ⟨buf ++ ds, [], errs⟩ := by
  induction ds with
  | nil => intro s i buf errs _; simp [digit_loop]
  | cons d ds ih =>
    intro s i buf errs h
    rw [List.all_cons, Bool.and_eq_true] at h
    obtain ⟨hd, hds⟩ := h
    rw [digit_loop]
    simp only [Bool.false_and, Bool.not_false, Bool.true_and, hd, if_false, if_true]
    rw [ih (s ++ [d]) (i + 1) (buf ++ [d]) errs hds]
    simp

/-- The digit loop in decimal mode consumes a run of ASCII decimal digits
and breaks on the first non-digit, which is read off the stream and
discarded (no unread). -/
theorem digit_loop_breaks (ds : List Char) :
    ∀ (s : List Char) (i : Nat) (buf : List Char) (errs : List ParseError)
      (b : Char) (rest : List Char),
      ds.all rust_is_ascii_digit = true → rust_is_ascii_digit b = false →
      digit_loop false s i buf errs (ds ++ b :: rest) =
        DigitLoopResult.brokeOut ⟨buf ++ ds, rest, errs⟩ (s ++ ds) (i + ds.length) := by
  induction ds with
  | nil =>
    intro s i buf errs b rest _ hb
    rw [List.nil_append, digit_loop]
    simp [hb]
  | cons d ds ih =>
    intro s i buf errs b rest h hb
    rw [List.all_cons, Bool.and_eq_true] at h
    obtain ⟨hd, hds⟩ := h
    rw [List.cons_append, digit_loop]
    simp only [Bool.false_and, Bool.not_false, Bool.true_and, hd, if_false, if_true]
    rw [ih (s ++ [d]) (i + 1) (buf ++ [d]) errs b rest hds hb]
    simp only [List.append_assoc, List.singleton_append, List.length_cons]
    have hi : i + 1 + ds.length = i + (ds.length + 1) := by omega
    rw [hi]
    simp

/-- Truncating an extended buffer back to the length of its old content
recovers exactly the old content. -/
theorem take_len_append (l₁ l₂ : List Char) : (l₁ ++ l₂).take l₁.length = l₁ :=
  List.take_left l₁ l₂

/-- A nonempty run of ASCII decimal digits followed by end of input: the
digit loop hits EOF, the buffer is truncated to the watermark and no parse
error is recorded. -/
theorem consume_dash_entity_digits_eof (pre : List Char) (errs : List ParseError)
    (ds : List Char) (hne : ds ≠ [])
    (hds : ds.all rust_is_ascii_digit = true) :
    consume_dash_entity ⟨pre, ds, errs⟩ = ⟨pre, [], errs⟩ := by
  obtain ⟨d, ds', rfl⟩ : ∃ d ds', ds = d :: ds' := by
    cases ds with
    | nil => exact absurd rfl hne
    | cons d ds' => exact ⟨d, ds', rfl⟩
  have hall := hds
  rw [List.all_cons, Bool.and_eq_true] at hds
  obtain ⟨hd, _⟩ := hds
  unfold consume_dash_entity
  simp only [Tokenizer.get_consume_len, Tokenizer.consume]
  rw [if_neg (rust_digit_not_marker d hd)]
  simp only []
  rw [digit_loop_all_digits (d :: ds') [] 0 (pre ++ ['#']) errs hall]
  simp only [Tokenizer.set_consume_len, List.append_assoc, List.singleton_append,
    take_len_append]

/-- A nonempty decimal digit run whose loop-breaking character is the last
character of the stream: the breaking character is consumed by the loop,
the terminator read of line 70 hits EOF, the buffer is truncated to the
watermark and no parse error is recorded. -/
theorem consume_dash_entity_break_eof (pre : List Char) (errs : List ParseError)
    (ds : List Char) (b : Char) (hne : ds ≠ [])
    (hds : ds.all rust_is_ascii_digit = true)
    (hb : rust_is_ascii_digit b = false) :
    consume_dash_entity ⟨pre, ds ++ [b], errs⟩ = ⟨pre, [], errs⟩ := by
  obtain ⟨d, ds', rfl⟩ : ∃ d ds', ds = d :: ds' := by
    cases ds with
    | nil => exact absurd rfl hne
    | cons d ds' => exact ⟨d, ds', rfl⟩
  have hall := hds
  rw [List.all_cons, Bool.and_eq_true] at hds
  obtain ⟨hd, _⟩ := hds
  unfold consume_dash_entity
  simp only [Tokenizer.get_consume_len, Tokenizer.consume, List.cons_append]
  rw [if_neg (rust_digit_not_marker d hd)]
  simp only []
  rw [← List.cons_append,
    digit_loop_breaks (d :: ds') [] 0 (pre ++ ['#']) errs b [] hall hb]
  simp only [Tokenizer.set_consume_len, List.append_assoc, List.singleton_append,
    take_len_append]

/-- A nonempty decimal digit run, a loop-breaking character, and a
terminator candidate that is not a semicolon: the expected-semicolon error
is recorded and the buffer is truncated to the watermark. -/
theorem consume_dash_entity_bad_terminator (pre : List Char) (errs : List ParseError)
    (ds : List Char) (b c : Char) (rest : List Char) (hne : ds ≠ [])
    (hds : ds.all rust_is_ascii_digit = true)
    (hb : rust_is_ascii_digit b = false) (hc : c ≠ ';') :
    consume_dash_entity ⟨pre, ds ++ b :: c :: rest, errs⟩ =
      ⟨pre, rest, errs ++ [ParseError.expectedSemicolon]⟩ := by
  obtain ⟨d, ds', rfl⟩ : ∃ d ds', ds = d :: ds' := by
    cases ds with
    | nil => exact absurd rfl hne
    | cons d ds' => exact ⟨d, ds', rfl⟩
  have hall := hds
  rw [List.all_cons, Bool.and_eq_true] at hds
  obtain ⟨hd, _⟩ := hds
  unfold consume_dash_entity
  simp only [Tokenizer.get_consume_len, Tokenizer.consume, List.cons_append]
  rw [if_neg (rust_digit_not_marker d hd)]
  simp only []
  rw [← List.cons_append,
    digit_loop_breaks (d :: ds') [] 0 (pre ++ ['#']) errs b (c :: rest) hall hb]
  simp only []
  rw [if_pos hc]
  simp only [Tokenizer.set_consume_len, Tokenizer.parse_error, List.append_assoc,
    List.singleton_append, take_len_append]

/-- A nonempty decimal digit run whose loop-breaking character is followed
by an actual semicolon: the reference reaches the value stage with the
parsed value of the digit string. -/
theorem consume_dash_entity_semicolon (pre : List Char) (errs : List ParseError)
    (ds : List Char) (b : Char) (rest : List Char) (hne : ds ≠ [])
    (hds : ds.all rust_is_ascii_digit = true)
    (hb : rust_is_ascii_digit b = false) :
    consume_dash_entity ⟨pre, ds ++ b :: ';' :: rest, errs⟩ =
      numeric_value_stage pre.length (u32_from_str_radix ds 10)
        ⟨pre ++ '#' :: ds, rest, errs⟩ := by
  obtain ⟨d, ds', rfl⟩ : ∃ d ds', ds = d :: ds' := by
    cases ds with
    | nil => exact absurd rfl hne
    | cons d ds' => exact ⟨d, ds', rfl⟩
  have hall := hds
  rw [List.all_cons, Bool.and_eq_true] at hds
  obtain ⟨hd, _⟩ := hds
  unfold consume_dash_entity
  simp only [Tokenizer.get_consume_len, Tokenizer.consume, List.cons_append]
  rw [if_neg (rust_digit_not_marker d hd)]
  simp only []
  rw [← List.cons_append,
    digit_loop_breaks (d :: ds') [] 0 (pre ++ ['#']) errs b (';' :: rest) hall hb]
  simp only []
  rw [if_neg (by simp : ¬(';' ≠ ';'))]
  rw [if_neg (by simp : ¬(0 + (d :: ds').length = 0))]
  simp only [List.nil_append, List.append_assoc, List.singleton_append, Nat.zero_add]
  rfl

/-! ### Claim theorems -/

/-- Claim C1 (code bug): the claim says that a well-formed numeric
reference whose value is a valid, non-legacy, non-guarded, non-reserved
scalar leaves the buffer as the watermark content followed by exactly that
scalar, with `&#65;`, `&#x41;` and `&#X41;` each appending `A`.  The code
has no append step for the valid-scalar case at all: with the input
`&#65;` at end of input the digit loop consumes the `;`, the terminator
read of line 70 hits EOF and the buffer is truncated empty; with a second
`;` supplied the value stage is reached but falls through all three checks
leaving the raw `#65` (resp. `#x41`, `#X41`) in the buffer — never an
`A`. -/
theorem c1_valid_scalar_never_appended :
    consume_character_reference ⟨[], ['#', '6', '5', ';'], []⟩ none = ⟨[], [], []⟩
    ∧ consume_character_reference ⟨[], ['#', '6', '5', ';', ';'], []⟩ none
        = ⟨['#', '6', '5'], [], []⟩
    ∧ consume_character_reference ⟨[], ['#', 'x', '4', '1', ';', ';'], []⟩ none
        = ⟨['#', 'x', '4', '1'], [], []⟩
    ∧ consume_character_reference ⟨[], ['#', 'X', '4', '1', ';', ';'], []⟩ none
        = ⟨['#', 'X', '4', '1'], [], []⟩ := by
  refine ⟨by decide, by decide, by decide, by decide⟩

/-- Claim C2 (confirmed): when the first character read is not EOF, not the
additional allowed character, not tab/LF/FF and not `#`, the call lands in
`consume_anything_else`, whose body is empty: the buffer and the recorded
errors are unchanged and exactly the one dispatch character has been read
from the stream. -/
theorem c2_named_branch_is_noop (buf : List Char) (errs : List ParseError)
    (c : Char) (rest : List Char) (extra : Option Char)
    (h1 : extra ≠ some c)
    (h2 : ¬(c = CHAR_TAB ∨ c = CHAR_LF ∨ c = CHAR_FF))
    (h3 : c ≠ '#') :
    consume_character_reference ⟨buf, c :: rest, errs⟩ extra = ⟨buf, rest, errs⟩ := by
  unfold consume_character_reference
  simp only []
  rw [if_neg h1, if_neg h2, if_neg h3]
  rfl

/-- Witness for C2 at the concrete dispatch character `a`. -/
theorem c2_named_branch_is_noop_witness :
    consume_character_reference ⟨['p'], ['a', 'b'], []⟩ none = ⟨['p'], ['b'], []⟩ :=
  c2_named_branch_is_noop ['p'] [] 'a' ['b'] none (by decide) (by decide) (by decide)

/-- Counterexample to claim C3: on the input `&#65` (digits followed by end
of input) the code records no parse error at all — the digit loop hits EOF,
truncates to the watermark and returns — whereas the claim asserts a parse
error is recorded. -/
theorem c3_count_example :
    consume_character_reference ⟨[], ['#', '6', '5'], []⟩ none = ⟨[], [], []⟩ := by
  decide

/-- Claim C3 (corrected): a numeric reference not terminated by `;` always
restores the buffer to the pre-`#` watermark, but a parse error is recorded
only when a terminator candidate is actually read and differs from `;`; on
EOF — during the digit run, or at the terminator read (the loop-breaking
character being the last of the stream) — the truncation is silent. -/
theorem c3_unterminated_amended (pre : List Char) (errs : List ParseError)
    (ds : List Char) (b c : Char) (rest : List Char) (hne : ds ≠ [])
    (hds : ds.all rust_is_ascii_digit = true)
    (hb : rust_is_ascii_digit b = false) (hc : c ≠ ';') :
    consume_dash_entity ⟨pre, ds, errs⟩ = ⟨pre, [], errs⟩
    ∧ consume_dash_entity ⟨pre, ds ++ [b], errs⟩ = ⟨pre, [], errs⟩
    ∧ consume_dash_entity ⟨pre, ds ++ b :: c :: rest, errs⟩
        = ⟨pre, rest, errs ++ [ParseError.expectedSemicolon]⟩ :=
  ⟨consume_dash_entity_digits_eof pre errs ds hne hds,
   consume_dash_entity_break_eof pre errs ds b hne hds hb,
   consume_dash_entity_bad_terminator pre errs ds b c rest hne hds hb hc⟩

/-- Witness for the amended C3 at `ds = 65`, breaker `;`, terminator
candidate `a`. -/
theorem c3_unterminated_amended_witness :
    consume_dash_entity ⟨[], ['6', '5'], []⟩ = ⟨[], [], []⟩
    ∧ consume_dash_entity ⟨[], ['6', '5', ';'], []⟩ = ⟨[], [], []⟩
    ∧ consume_dash_entity ⟨[], ['6', '5', ';', 'a'], []⟩
        = ⟨[], [], [ParseError.expectedSemicolon]⟩ :=
  c3_unterminated_amended [] [] ['6', '5'] ';' 'a' [] (by decide) (by decide)
    (by decide) (by decide)

/-- Counterexample to claim C4: `&#;` at end of input records no parse
error (the `;` is eaten by the digit loop as its breaking character and the
terminator read hits EOF, truncating silently), and `&#0;` followed by a
second `;` records no parse error either and leaves `#0` in the buffer —
value 0 is neither a legacy-table key, nor in the surrogate/overflow guard,
nor reserved, so the value stage falls through. -/
theorem c4_count_example :
    consume_character_reference ⟨[], ['#', ';'], []⟩ none = ⟨[], [], []⟩
    ∧ consume_character_reference ⟨[], ['#', '0', ';', ';'], []⟩ none
        = ⟨['#', '0'], [], []⟩ := by
  refine ⟨by decide, by decide⟩

/-- Claim C4 (corrected): the no-digits parse error for `&#;`/`&#x;` fires
only when the loop-breaking `;` is followed by a second `;` (the terminator
candidate of line 70); when the first `;` is the last character of the
stream, the buffer is truncated to the watermark silently.  `&#0;` never
records a parse error: at end of input it is silently truncated, and with a
second `;` the value stage falls through every check and `#0` stays in the
buffer. -/
theorem c4_zero_digits_amended (pre : List Char) (errs : List ParseError)
    (rest : List Char) :
    consume_dash_entity ⟨pre, ';' :: ';' :: rest, errs⟩
        = ⟨pre, rest, errs ++ [ParseError.noDigits]⟩
    ∧ consume_dash_entity ⟨pre, 'x' :: ';' :: ';' :: rest, errs⟩
        = ⟨pre, rest, errs ++ [ParseError.noDigits]⟩
    ∧ consume_dash_entity ⟨pre, [';'], errs⟩ = ⟨pre, [], errs⟩
    ∧ consume_dash_entity ⟨pre, ['x', ';'], errs⟩ = ⟨pre, [], errs⟩
    ∧ consume_dash_entity ⟨pre, ['0', ';'], errs⟩ = ⟨pre, [], errs⟩
    ∧ consume_dash_entity ⟨pre, '0' :: ';' :: ';' :: rest, errs⟩
        = ⟨pre ++ ['#', '0'], rest, errs⟩ := by
  refine ⟨?_, ?_, ?_, ?_, ?_, ?_⟩
  all_goals
    simp +decide [consume_dash_entity, digit_loop, numeric_value_stage,
      Tokenizer.get_consume_len, Tokenizer.consume, Tokenizer.set_consume_len,
      Tokenizer.parse_error, take_len_append, u32_from_str_radix, digit_value,
      token_replacements_contains, TOKEN_REPLACEMENTS, in_reserved_number_range,
      NONCHARACTER_LIST, surrogate_overflow_cond, List.contains]

/-- Counterexample to claim C5: the parsed value 0x110000 exceeds the
maximum valid Unicode scalar value 0x10FFFF, so the claim demands
truncation, a parse error and a U+FFFD append — but line 104 compares
against the seven-digit literal 0x10FFFFF, so the guard does not fire: the
reference `&#x110000;` (with the second `;` required by the terminator
read) produces no error and leaves the raw `#x110000` in the buffer. -/
theorem c5_count_example :
    consume_character_reference
        ⟨[], ['#', 'x', '1', '1', '0', '0', '0', '0', ';', ';'], []⟩ none
      = ⟨['#', 'x', '1', '1', '0', '0', '0', '0'], [], []⟩ := by
  decide

/-- Claim C5 (corrected): the guard of line 104 fires for values strictly
between 0xD800 and 0xDFFF or exceeding 0x10FFFFF (not 0x10FFFF: values
from 0x110000 through 0x10FFFFF fall through it).  Whenever the parsed
value reaches the value stage and satisfies that condition, the buffer is
truncated to the watermark, the parse error is recorded and U+FFFD is
appended — end to end, a decimal digit run whose value satisfies the guard,
with its loop-breaking `;` followed by the terminator `;`, yields exactly
the watermark content plus U+FFFD and the recorded error. -/
theorem c5_surrogate_guard_amended (len num : Nat) (tk : Tokenizer)
    (pre : List Char) (errs : List ParseError) (ds : List Char)
    (rest : List Char) (h : surrogate_overflow_cond num = true)
    (hne : ds ≠ []) (hds : ds.all rust_is_ascii_digit = true)
    (hnum : surrogate_overflow_cond (u32_from_str_radix ds 10) = true) :
    numeric_value_stage len num tk
        = ⟨tk.buffer.take len ++ [CHAR_REPLACEMENT], tk.input,
            tk.errors ++ [ParseError.withinReservedReplaced]⟩
    ∧ consume_dash_entity ⟨pre, ds ++ ';' :: ';' :: rest, errs⟩
        = ⟨pre ++ [CHAR_REPLACEMENT], rest,
            errs ++ [ParseError.withinReservedReplaced]⟩ := by
  refine ⟨numeric_value_stage_surrogate len num tk h, ?_⟩
  rw [consume_dash_entity_semicolon pre errs ds ';' rest hne hds (by decide)]
  rw [numeric_value_stage_surrogate _ _ _ hnum]
  rw [show pre ++ '#' :: ds = pre ++ ('#' :: ds) from rfl, take_len_append]

/-- Witness for the amended C5 at the surrogate value 0xD801 = 55297. -/
theorem c5_surrogate_guard_amended_witness :
    numeric_value_stage 0 55297 ⟨[], [], []⟩
        = ⟨[CHAR_REPLACEMENT], [], [ParseError.withinReservedReplaced]⟩
    ∧ consume_dash_entity ⟨[], ['5', '5', '2', '9', '7', ';', ';'], []⟩
        = ⟨[CHAR_REPLACEMENT], [], [ParseError.withinReservedReplaced]⟩ :=
  c5_surrogate_guard_amended 0 55297 ⟨[], [], []⟩ [] []
    ['5', '5', '2', '9', '7'] [] (by decide) (by decide) (by decide) (by decide)

/-- Counterexample to claim C6: with the input `&#1;` at end of input no
parse error is recorded at all — the digit loop eats the `;` as its
breaking character and the terminator read of line 70 hits EOF, truncating
silently — whereas the claim asserts `&#1;` records a parse error. -/
theorem c6_count_example :
    consume_character_reference ⟨[], ['#', '1', ';'], []⟩ none = ⟨[], [], []⟩ := by
  decide

/-- Claim C6 (corrected): whenever a parsed value that is reserved (and not
a legacy-table key, which would have ended decoding at line 97) reaches the
value stage, the buffer is truncated to the watermark, the parse error is
recorded and no character is appended; `&#1;` shows this end to end only
when the loop-breaking `;` is followed by a second `;` — at end of input
the truncation is silent. -/
theorem c6_reserved_amended (len num : Nat) (tk : Tokenizer)
    (pre : List Char) (errs : List ParseError) (rest : List Char)
    (h1 : in_reserved_number_range num = true)
    (h2 : token_replacements_contains num = false) :
    numeric_value_stage len num tk
        = ⟨tk.buffer.take len, tk.input,
            tk.errors ++ [ParseError.withinReservedIgnored]⟩
    ∧ consume_dash_entity ⟨pre, '1' :: ';' :: ';' :: rest, errs⟩
        = ⟨pre, rest, errs ++ [ParseError.withinReservedIgnored]⟩ := by
  refine ⟨numeric_value_stage_reserved len num tk h1 h2, ?_⟩
  rw [show ('1' :: ';' :: ';' :: rest : List Char) = ['1'] ++ ';' :: ';' :: rest
      from rfl]
  rw [consume_dash_entity_semicolon pre errs ['1'] ';' rest (by decide) (by decide)
    (by decide)]
  rw [numeric_value_stage_reserved _ _ _ (by decide) (by decide)]
  rw [show pre ++ '#' :: ['1'] = pre ++ ('#' :: ['1']) from rfl, take_len_append]

/-- Witness for the amended C6 at the reserved value 1. -/
theorem c6_reserved_amended_witness :
    numeric_value_stage 0 1 ⟨[], [], []⟩
        = ⟨[], [], [ParseError.withinReservedIgnored]⟩
    ∧ consume_dash_entity ⟨[], ['1', ';', ';'], []⟩
        = ⟨[], [], [ParseError.withinReservedIgnored]⟩ :=
  c6_reserved_amended 0 1 ⟨[], [], []⟩ [] [] [] (by decide) (by decide)

/-- Claim C7 (confirmed): `in_reserved_number_range` holds for a codepoint
exactly when it lies in 0x1-0x8, 0xE-0x1F, 0x7F-0x9F or 0xFDD0-0xFDEF, or
is the standalone 0x0B, or is one of the 34 plane-boundary noncharacters —
the codepoints of one of the 17 planes (plane index at most 16) whose low
16 bits are 0xFFFE or 0xFFFF.  No other codepoint is classified as
reserved. -/
theorem c7_reserved_range_exact (n : Nat) :
    in_reserved_number_range n = true ↔
      ((0x1 ≤ n ∧ n ≤ 0x8) ∨ (0xE ≤ n ∧ n ≤ 0x1F) ∨ (0x7F ≤ n ∧ n ≤ 0x9F) ∨
        (0xFDD0 ≤ n ∧ n ≤ 0xFDEF) ∨ n = 0x0B ∨
        (n / 0x10000 ≤ 16 ∧ (n % 0x10000 = 0xFFFE ∨ n % 0x10000 = 0xFFFF))) := by
  simp [in_reserved_number_range, NONCHARACTER_LIST, List.contains]
  omega

/-- The digit loop, in either mode, only ever appends to the consume buffer
and never touches the recorded errors. -/
theorem digit_loop_shape (input : List Char) :
    ∀ (is_hex : Bool) (s : List Char) (i : Nat) (buf : List Char)
      (errs : List ParseError),
      (∃ d, digit_loop is_hex s i buf errs input
          = DigitLoopResult.eofInLoop ⟨buf ++ d, [], errs⟩)
      ∨ (∃ d rest s2 i2, digit_loop is_hex s i buf errs input
          = DigitLoopResult.brokeOut ⟨buf ++ d, rest, errs⟩ s2 i2) := by
  induction input with
  | nil =>
    intro is_hex s i buf errs
    left
    exact ⟨[], by simp [digit_loop]⟩
  | cons c cs ih =>
    intro is_hex s i buf errs
    rw [digit_loop]
    by_cases h1 : (is_hex && rust_is_ascii_hexdigit c) = true
    · rw [if_pos h1]
      rcases ih is_hex (s ++ [c]) (i + 1) (buf ++ [c]) errs with ⟨d, hd⟩ | ⟨d, r, s2, i2, hd⟩
      · left; exact ⟨c :: d, by rw [hd]; simp⟩
      · right; exact ⟨c :: d, r, s2, i2, by rw [hd]; simp⟩
    · rw [if_neg h1]
      by_cases h2 : (!is_hex && rust_is_ascii_digit c) = true
      · rw [if_pos h2]
        rcases ih is_hex (s ++ [c]) (i + 1) (buf ++ [c]) errs with ⟨d, hd⟩ | ⟨d, r, s2, i2, hd⟩
        · left; exact ⟨c :: d, by rw [hd]; simp⟩
        · right; exact ⟨c :: d, r, s2, i2, by rw [hd]; simp⟩
      · rw [if_neg h2]
        right
        exact ⟨[], cs, s, i, by simp⟩

/-- The value stage either leaves the buffer alone or truncates it to the
watermark before appending at most one character. -/
theorem numeric_value_stage_buffer (len num : Nat) (tk : Tokenizer) :
    (numeric_value_stage len num tk).buffer = tk.buffer
    ∨ ∃ u, (numeric_value_stage len num tk).buffer = tk.buffer.take len ++ u := by
  unfold numeric_value_stage
  by_cases ht : token_replacements_contains num = true
  · right
    exact ⟨[token_replacement num], by simp [ht, Tokenizer.set_consume_len,
      Tokenizer.consume]⟩
  · rw [Bool.not_eq_true] at ht
    by_cases hs : surrogate_overflow_cond num = true
    · right
      refine ⟨[CHAR_REPLACEMENT], ?_⟩
      simp [ht, hs, surrogate_imp_not_reserved num hs, Tokenizer.set_consume_len,
        Tokenizer.parse_error, Tokenizer.consume]
    · rw [Bool.not_eq_true] at hs
      by_cases hr : in_reserved_number_range num = true
      · right
        refine ⟨[], ?_⟩
        simp [ht, hs, hr, Tokenizer.set_consume_len, Tokenizer.parse_error]
      · left
        rw [Bool.not_eq_true] at hr
        simp [ht, hs, hr]

/-- Inversion for the digit loop ending in EOF: the final state extends the
initial buffer, has exhausted the stream and keeps the errors. -/
theorem digit_loop_eof_inv (input : List Char) (is_hex : Bool) (s : List Char)
    (i : Nat) (buf : List Char) (errs : List ParseError) (tk3 : Tokenizer)
    (h : digit_loop is_hex s i buf errs input = DigitLoopResult.eofInLoop tk3) :
    ∃ d, tk3 = ⟨buf ++ d, [], errs⟩ := by
  rcases digit_loop_shape input is_hex s i buf errs with ⟨d, hd⟩ | ⟨d, r, s2, i2, hd⟩
  · rw [h] at hd
    injection hd with h1
    exact ⟨d, h1⟩
  · rw [h] at hd
    exact absurd hd (by simp)

/-- Inversion for the digit loop ending on a breaking character: the final
state extends the initial buffer and keeps the errors. -/
theorem digit_loop_broke_inv (input : List Char) (is_hex : Bool) (s : List Char)
    (i : Nat) (buf : List Char) (errs : List ParseError) (tk3 : Tokenizer)
    (s2 : List Char) (i2 : Nat)
    (h : digit_loop is_hex s i buf errs input
        = DigitLoopResult.brokeOut tk3 s2 i2) :
    ∃ d, tk3.buffer = buf ++ d ∧ tk3.errors = errs := by
  rcases digit_loop_shape input is_hex s i buf errs with ⟨d, hd⟩ | ⟨d, r, s2', i2', hd⟩
  · rw [h] at hd
    exact absurd hd (by simp)
  · rw [h] at hd
    injection hd with h1 h2 h3
    exact ⟨d, by rw [h1], by rw [h1]⟩

/-- The value stage keeps any buffer content below the watermark: if the
buffer extends `buf` and the watermark is `buf.length`, the result buffer
still extends `buf`. -/
theorem numeric_value_stage_extends (num : Nat) (buf : List Char)
    (tk2 : Tokenizer) (hb : ∃ e2, tk2.buffer = buf ++ e2) :
    ∃ t, (numeric_value_stage buf.length num tk2).buffer = buf ++ t := by
  obtain ⟨e2, hb⟩ := hb
  rcases numeric_value_stage_buffer buf.length num tk2 with h | ⟨u, h⟩
  · exact ⟨e2, by rw [h, hb]⟩
  · exact ⟨u, by rw [h, hb, take_len_append]⟩

/-- `consume_dash_entity` never drops below the buffer content present at
its call: its result buffer is always the original buffer followed by some
(possibly empty) tail. -/
theorem consume_dash_entity_buffer_extends (tk : Tokenizer) :
    ∃ t, (consume_dash_entity tk).buffer = tk.buffer ++ t := by
  obtain ⟨buf, inp, errs⟩ := tk
  unfold consume_dash_entity
  dsimp only [Tokenizer.get_consume_len, Tokenizer.consume]
  split
  case _ tk3 heq =>
    obtain ⟨d, rfl⟩ := digit_loop_eof_inv _ _ _ _ _ _ _ heq
    refine ⟨[], ?_⟩
    rcases inp with _ | ⟨c, rest⟩
    · simp_all [Tokenizer.set_consume_len, take_len_append]
    · by_cases hx : c = 'x' ∨ c = 'X' <;>
        simp_all [Tokenizer.set_consume_len, Tokenizer.consume, take_len_append]
  case _ tk3 s2 i2 heq =>
    obtain ⟨d, hb3, he3⟩ := digit_loop_broke_inv _ _ _ _ _ _ _ _ _ heq
    have hbuf : ∃ e, tk3.buffer = (buf ++ e) ++ d ∧ buf.length ≤ (buf ++ e).length := by
      rcases inp with _ | ⟨c, rest⟩
      · exact ⟨['#'], by simp_all⟩
      · by_cases hx : c = 'x' ∨ c = 'X'
        · refine ⟨['#', c], ?_, by simp⟩
          rw [hb3]
          simp_all [Tokenizer.consume]
        · exact ⟨['#'], by simp_all, by simp⟩
    obtain ⟨e, hbe, _⟩ := hbuf
    split
    · refine ⟨[], ?_⟩
      simp [Tokenizer.set_consume_len, hbe, List.append_assoc, take_len_append]
    split
    · refine ⟨[], ?_⟩
      simp [Tokenizer.set_consume_len, Tokenizer.parse_error, hbe,
        List.append_assoc, take_len_append]
    split
    · refine ⟨[], ?_⟩
      simp [Tokenizer.set_consume_len, Tokenizer.parse_error, hbe,
        List.append_assoc, take_len_append]
    · apply numeric_value_stage_extends
      exact ⟨e ++ d, by simp [hbe, List.append_assoc]⟩

/-- Counterexample to claim C8: with a nonempty pre-call buffer `a` and an
immediately-EOF stream, `clear_consume_buffer` empties the buffer — the
result is not the pre-call state `a`; and `clear_consume_buffer` is also
invoked on a non-EOF path, namely when the first character read equals the
additional allowed character (here `z`), which likewise empties the
pre-call buffer. -/
theorem c8_count_example :
    consume_character_reference ⟨['a'], [], []⟩ none = ⟨[], [], []⟩
    ∧ consume_character_reference ⟨['a'], ['z', 'q'], []⟩ (some 'z')
        = ⟨[], ['z', 'q'], []⟩ := by
  refine ⟨by decide, by decide⟩

/-- Claim C8 (corrected): on first-read EOF the consume buffer is fully
cleared (emptied — equal to the pre-call state only when that was empty)
and the function returns with errors untouched; the full-reset clear is
invoked on exactly two paths — the hard-EOF abort and the
additional-allowed-character path (where the read character is also pushed
back) — and on every other path the result buffer still begins with the
entire pre-call buffer content. -/
theorem c8_clear_paths_amended (buf : List Char) (errs : List ParseError)
    (extra : Option Char) :
    consume_character_reference ⟨buf, [], errs⟩ extra = ⟨[], [], errs⟩
    ∧ (∀ c rest, extra = some c →
        consume_character_reference ⟨buf, c :: rest, errs⟩ extra
          = ⟨[], c :: rest, errs⟩)
    ∧ (∀ c rest, extra ≠ some c →
        ∃ t, (consume_character_reference ⟨buf, c :: rest, errs⟩ extra).buffer
          = buf ++ t) := by
  refine ⟨by simp [consume_character_reference], ?_, ?_⟩
  · intro c rest h
    subst h
    simp [consume_character_reference]
  · intro c rest h
    unfold consume_character_reference
    simp only []
    rw [if_neg h]
    by_cases h2 : c = CHAR_TAB ∨ c = CHAR_LF ∨ c = CHAR_FF
    · rw [if_pos h2]
      exact ⟨[], by simp⟩
    · rw [if_neg h2]
      by_cases h3 : c = '#'
      · rw [if_pos h3]
        exact consume_dash_entity_buffer_extends ⟨buf, rest, errs⟩
      · rw [if_neg h3]
        exact ⟨[], by simp [consume_anything_else]⟩

/-- Witness for the amended C8: the additional-allowed-character path
clears the nonempty buffer `a`, and the named-reference path keeps `a` as
the start of the buffer. -/
theorem c8_clear_paths_amended_witness :
    consume_character_reference ⟨['a'], ['z', 'q'], []⟩ (some 'z')
        = ⟨[], ['z', 'q'], []⟩
    ∧ ∃ t, (consume_character_reference ⟨['a'], ['b'], []⟩ (some 'z')).buffer
        = ['a'] ++ t :=
  ⟨(c8_clear_paths_amended ['a'] [] (some 'z')).2.1 'z' ['q'] rfl,
   (c8_clear_paths_amended ['a'] [] (some 'z')).2.2 'b' [] (by decide)⟩

/-- Counterexample to claim C9: on the input consisting of a single
horizontal tab, the function returns with the buffer unchanged but the tab
has been read off the stream and is not pushed back — the resulting stream
is empty, so the character is not left for the caller to reprocess. -/
theorem c9_count_example :
    consume_character_reference ⟨['a'], [CHAR_TAB], []⟩ none = ⟨['a'], [], []⟩ := by
  decide

/-- Claim C9 (corrected): when the first character read is horizontal tab,
line feed or form feed (and does not match the additional allowed
character), the function returns immediately with the buffer and errors
unchanged — but the character has been consumed from the stream without an
unread, so it is not available for the caller to reprocess. -/
theorem c9_whitespace_amended (buf : List Char) (errs : List ParseError)
    (rest : List Char) (extra : Option Char) (c : Char)
    (h1 : c = CHAR_TAB ∨ c = CHAR_LF ∨ c = CHAR_FF)
    (h2 : extra ≠ some c) :
    consume_character_reference ⟨buf, c :: rest, errs⟩ extra = ⟨buf, rest, errs⟩ := by
  unfold consume_character_reference
  simp only []
  rw [if_neg h2, if_pos h1]

/-- Witness for the amended C9 at the tab character. -/
theorem c9_whitespace_amended_witness :
    consume_character_reference ⟨['a'], [CHAR_TAB, 'b'], []⟩ none
      = ⟨['a'], ['b'], []⟩ :=
  c9_whitespace_amended ['a'] [] ['b'] none CHAR_TAB (by decide) (by decide)

/-- Claim C10 (confirmed): the surrogate/overflow condition of line 104 and
`in_reserved_number_range` are never both true, so when the guard fires the
replacement character it appends survives the reserved-range check that
runs unconditionally afterwards: the value stage then ends with exactly the
truncated buffer plus U+FFFD and the recorded guard error. -/
theorem c10_guard_and_reserved_disjoint :
    (∀ num : Nat,
      ¬(surrogate_overflow_cond num = true ∧ in_reserved_number_range num = true))
    ∧ (∀ (len num : Nat) (tk : Tokenizer), surrogate_overflow_cond num = true →
        numeric_value_stage len num tk
          = ⟨tk.buffer.take len ++ [CHAR_REPLACEMENT], tk.input,
              tk.errors ++ [ParseError.withinReservedReplaced]⟩) :=
  ⟨fun num h => by
      rw [surrogate_imp_not_reserved num h.1] at h
      exact absurd h.2 (by decide),
   fun len num tk h => numeric_value_stage_surrogate len num tk h⟩

/-- Witness for C10 at the surrogate value 0xD801 = 55297. -/
theorem c10_guard_and_reserved_disjoint_witness :
    ¬(surrogate_overflow_cond 55297 = true
        ∧ in_reserved_number_range 55297 = true)
    ∧ numeric_value_stage 0 55297 ⟨['w'], [], []⟩
        = ⟨[CHAR_REPLACEMENT], [], [ParseError.withinReservedReplaced]⟩ :=
  ⟨c10_guard_and_reserved_disjoint.1 55297,
   c10_guard_and_reserved_disjoint.2 0 55297 ⟨['w'], [], []⟩ (by decide)⟩
